import Mathlib

/-!
Shallow embedding of `src/index.ts` of the qr-generator repository.

The embedding covers the version/capacity table `QR_SPECIFICATIONS`, the
module-count formula `calculateModules`, the lookup-with-fallback
`getQRSpec`, the block-size search `getBlockSize`, the alignment-pattern
placement logic of `addAlignementPattern` (modelled as the list of module
coordinates at which a pattern is drawn), and the version selector
`findBestConfig`.

Numbers: the source works on JS doubles, but every reachable value here is
a small non-negative integer, so `Nat` is used throughout.  The fallback
capacities are computed in the source as `Math.floor(baseCapacity * r)` for
decimal literals `r = 0.77, 0.64, 0.48, 0.34, 0.23, 0.36, 0.52, 0.66`;
for every base capacity produced by a version in the range this development
quantifies over (versions 1..59), IEEE-754 double evaluation of
`Math.floor(baseCapacity * r)` coincides with the exact rational floor
`baseCapacity * (100*r) / 100`, which is how it is written below.
-/

namespace QRGen

/-- Error-correction level symbol, `'L' | 'M' | 'Q' | 'H'` in the source. -/
inductive ECLevel
  | L
  | M
  | Q
  | H
deriving DecidableEq

/-- One row of the per-level error-correction data of a `QRVersionSpec`. -/
structure ECSpec where
  dataCodewords : Nat
  ecCodewords : Nat
  blocks : Nat
  dataPerBlock : Nat
  ecPerBlock : Nat
deriving DecidableEq

/-- The `errorCorrection` record of a `QRVersionSpec`: one `ECSpec` per level. -/
structure ECTable where
  L : ECSpec
  M : ECSpec
  Q : ECSpec
  H : ECSpec
deriving DecidableEq

/-- Dynamic indexing `spec.errorCorrection[ecLevel]` of the source. -/
def ECTable.get (t : ECTable) : ECLevel → ECSpec
  | .L => t.L
  | .M => t.M
  | .Q => t.Q
  | .H => t.H

/-- The `QRVersionSpec` interface of `src/index.ts`. -/
structure QRVersionSpec where
  version : Nat
  module : Nat
  totalCodewords : Nat
  errorCorrection : ECTable
  alignmentPositions : List Nat
  numberOfBits : Nat
deriving DecidableEq

/-- Entry `1` of `QR_SPECIFICATIONS`. -/
def spec1 : QRVersionSpec :=
  { version := 1, module := 21, totalCodewords := 26,
    errorCorrection :=
      { L := { dataCodewords := 19, ecCodewords := 7, blocks := 1, dataPerBlock := 19, ecPerBlock := 7 },
        M := { dataCodewords := 16, ecCodewords := 10, blocks := 1, dataPerBlock := 16, ecPerBlock := 10 },
        Q := { dataCodewords := 13, ecCodewords := 13, blocks := 1, dataPerBlock := 13, ecPerBlock := 13 },
        H := { dataCodewords := 9, ecCodewords := 17, blocks := 1, dataPerBlock := 9, ecPerBlock := 17 } },
    alignmentPositions := [],
    numberOfBits := 8 }

/-- Entry `2` of `QR_SPECIFICATIONS`. -/
def spec2 : QRVersionSpec :=
  { version := 2, module := 25, totalCodewords := 44,
    errorCorrection :=
      { L := { dataCodewords := 34, ecCodewords := 10, blocks := 1, dataPerBlock := 34, ecPerBlock := 10 },
        M := { dataCodewords := 28, ecCodewords := 16, blocks := 1, dataPerBlock := 28, ecPerBlock := 16 },
        Q := { dataCodewords := 22, ecCodewords := 22, blocks := 1, dataPerBlock := 22, ecPerBlock := 22 },
        H := { dataCodewords := 16, ecCodewords := 28, blocks := 1, dataPerBlock := 16, ecPerBlock := 28 } },
    alignmentPositions := [6, 18],
    numberOfBits := 8 }

/-- Entry `3` of `QR_SPECIFICATIONS`. -/
def spec3 : QRVersionSpec :=
  { version := 3, module := 29, totalCodewords := 70,
    errorCorrection :=
      { L := { dataCodewords := 55, ecCodewords := 15, blocks := 1, dataPerBlock := 55, ecPerBlock := 15 },
        M := { dataCodewords := 44, ecCodewords := 26, blocks := 1, dataPerBlock := 44, ecPerBlock := 26 },
        Q := { dataCodewords := 34, ecCodewords := 36, blocks := 2, dataPerBlock := 17, ecPerBlock := 18 },
        H := { dataCodewords := 26, ecCodewords := 44, blocks := 2, dataPerBlock := 13, ecPerBlock := 22 } },
    alignmentPositions := [6, 22],
    numberOfBits := 8 }

/-- Entry `4` of `QR_SPECIFICATIONS`. -/
def spec4 : QRVersionSpec :=
  { version := 4, module := 33, totalCodewords := 100,
    errorCorrection :=
      { L := { dataCodewords := 80, ecCodewords := 20, blocks := 1, dataPerBlock := 80, ecPerBlock := 20 },
        M := { dataCodewords := 64, ecCodewords := 36, blocks := 2, dataPerBlock := 32, ecPerBlock := 18 },
        Q := { dataCodewords := 48, ecCodewords := 52, blocks := 2, dataPerBlock := 24, ecPerBlock := 26 },
        H := { dataCodewords := 36, ecCodewords := 64, blocks := 4, dataPerBlock := 9, ecPerBlock := 16 } },
    alignmentPositions := [6, 26],
    numberOfBits := 8 }

/-- Entry `5` of `QR_SPECIFICATIONS`. -/
def spec5 : QRVersionSpec :=
  { version := 5, module := 37, totalCodewords := 134,
    errorCorrection :=
      { L := { dataCodewords := 108, ecCodewords := 26, blocks := 1, dataPerBlock := 108, ecPerBlock := 26 },
        M := { dataCodewords := 86, ecCodewords := 48, blocks := 2, dataPerBlock := 43, ecPerBlock := 24 },
        Q := { dataCodewords := 62, ecCodewords := 72, blocks := 2, dataPerBlock := 31, ecPerBlock := 36 },
        H := { dataCodewords := 46, ecCodewords := 88, blocks := 2, dataPerBlock := 23, ecPerBlock := 44 } },
    alignmentPositions := [6, 30],
    numberOfBits := 8 }

/-- The record-key lookup `QR_SPECIFICATIONS[version]`: `some` for the five
curated entries, `none` for any other key. -/
def QR_SPECIFICATIONS (version : Nat) : Option QRVersionSpec :=
  if version = 1 then some spec1
  else if version = 2 then some spec2
  else if version = 3 then some spec3
  else if version = 4 then some spec4
  else if version = 5 then some spec5
  else none

/-- `calculateModules`: `21 + 4 * (version - 1)`.  `Nat` subtraction agrees
with the source for every `version ≥ 1`, the only versions the claims and
the call sites reach. -/
def calculateModules (version : Nat) : Nat :=
  21 + 4 * (version - 1)

/-- The estimated spec built by the fallback branch of `getQRSpec`
(lines 119-136 of `src/index.ts`).  Each `Math.floor(baseCapacity * r)`
is written as the exact rational floor; see the file header for the
IEEE-754 agreement note. -/
def fallbackSpec (version : Nat) : QRVersionSpec :=
  let module := calculateModules version
  let baseCapacity := (module * module - 225) / 8
  { version := version, module := module, totalCodewords := baseCapacity,
    errorCorrection :=
      { L := { dataCodewords := baseCapacity * 77 / 100, ecCodewords := baseCapacity * 23 / 100,
               blocks := 1, dataPerBlock := baseCapacity * 77 / 100, ecPerBlock := baseCapacity * 23 / 100 },
        M := { dataCodewords := baseCapacity * 64 / 100, ecCodewords := baseCapacity * 36 / 100,
               blocks := 1, dataPerBlock := baseCapacity * 64 / 100, ecPerBlock := baseCapacity * 36 / 100 },
        Q := { dataCodewords := baseCapacity * 48 / 100, ecCodewords := baseCapacity * 52 / 100,
               blocks := 1, dataPerBlock := baseCapacity * 48 / 100, ecPerBlock := baseCapacity * 52 / 100 },
        H := { dataCodewords := baseCapacity * 34 / 100, ecCodewords := baseCapacity * 66 / 100,
               blocks := 1, dataPerBlock := baseCapacity * 34 / 100, ecPerBlock := baseCapacity * 66 / 100 } },
    alignmentPositions := if version = 1 then [] else [6, 6 + 4 * (version - 1)],
    numberOfBits := if version < 10 then 8 else 16 }

/-- `getQRSpec`: curated table entry when present, estimated fallback
otherwise.  The source function is total: it never throws. -/
def getQRSpec (version : Nat) : QRVersionSpec :=
  match QR_SPECIFICATIONS version with
  | some spec => spec
  | none => fallbackSpec version

/-- The `while (width % blockNumber != 0) width--` loop of `getBlockSize`,
as structural recursion on `width`. -/
def adjustWidth (blockNumber : Nat) : Nat → Nat
  | 0 => 0
  | w + 1 => if (w + 1) % blockNumber = 0 then w + 1 else adjustWidth blockNumber w

/-- `getBlockSize`, with the canvas abstracted to its pixel `width`:
decrement `width` until divisible by `blockNumber`, then divide. -/
def getBlockSize (width blockNumber : Nat) : Nat :=
  adjustWidth blockNumber width / blockNumber

/-- A module-space coordinate pair, the `{x, y}` objects of
`addAlignementPattern`. -/
structure Coord where
  x : Nat
  y : Nat
deriving DecidableEq

/-- The `isCoordinateForbiden` closure: a candidate is forbidden when it
lies in the top-left, top-right or bottom-left finder zone.  `module - 8`
is `Nat` subtraction, which agrees with the source for `module ≥ 8`
(every reachable module count is ≥ 17). -/
def isCoordinateForbiden (module : Nat) (coords : Coord) : Bool :=
  (coords.x ≤ 8 && coords.y ≤ 8) ||
  (coords.x ≥ module - 8 && coords.y ≤ 8) ||
  (coords.x ≤ 8 && coords.y ≥ module - 8)

/-- One outer iteration of the `forEach` in `addAlignementPattern` for the
axis value `v`: the inner `for` walks every `p` in `alignmentPositions`,
and `(v, p)` is drawn (and pushed onto the fresh `alreadySeens` list) when
it was not already seen and is not forbidden.  The returned list is exactly
the coordinates drawn during this iteration, in drawing order. -/
def drawnForColumn (module : Nat) (positions : List Nat) (v : Nat) : List Coord :=
  positions.foldl
    (fun alreadySeens p =>
      let entry : Coord := { x := v, y := p }
      if (!alreadySeens.any fun seen => seen.x == entry.x && seen.y == entry.y) &&
          !isCoordinateForbiden module entry then
        alreadySeens ++ [entry]
      else
        alreadySeens)
    []

/-- The alignment coordinates drawn by `addAlignementPattern config`, in
drawing order.  As in the source, the axis is re-looked-up through
`getQRSpec config.version` while the exclusion filter uses
`config.module`; an empty axis draws nothing. -/
def addAlignementPatternCoords (config : QRVersionSpec) : List Coord :=
  let spec := getQRSpec config.version
  let alignmentPositions := spec.alignmentPositions
  if alignmentPositions.length = 0 then []
  else
    alignmentPositions.foldl
      (fun drawn v => drawn ++ drawnForColumn config.module alignmentPositions v)
      []

/-- The failure taxonomy of `findBestConfig`: each constructor is one
`throw new Error(...)` site, carrying exactly the data interpolated into
that error message. -/
inductive QRError
  | unsupportedEncoding (encodingType : String)
  | invalidECLevel (errorCorrectionLevel : String)
  | textTooLong (textLength : Nat) (encodingType : String) (errorCorrectionLevel : String)
deriving DecidableEq

/-- The validated-level check `['L','M','Q','H'].includes(...)`. -/
def validLevel (s : String) : Bool :=
  ["L", "M", "Q", "H"].contains s

/-- The cast `errorCorrectionLevel as ErrorCorrectionLevel`, meaningful
only after `validLevel` has passed. -/
def toECLevel (s : String) : ECLevel :=
  if s = "L" then .L
  else if s = "M" then .M
  else if s = "Q" then .Q
  else .H

/-- Capacity read by the selector loop:
`getQRSpec(version).errorCorrection[ecLevel].dataCodewords`. -/
def cap (version : Nat) (lvl : ECLevel) : Nat :=
  ((getQRSpec version).errorCorrection.get lvl).dataCodewords

/-- The selector loop `for (version = 1; version <= 10; version++)`,
as recursion on the remaining iteration count (`fuel`): return the spec of
the current `version` when the text fits, else try the next version. -/
def scanFrom (textLength : Nat) (lvl : ECLevel) : Nat → Nat → Option QRVersionSpec
  | _, 0 => none
  | version, fuel + 1 =>
    if textLength ≤ cap version lvl then some (getQRSpec version)
    else scanFrom textLength lvl (version + 1) fuel

/-- `findBestConfig`: validate the encoding type, validate the level, then
scan versions 1..10 for the first fit; throwing is modelled as `.error`. -/
def findBestConfig (textLength : Nat) (encodingType errorCorrectionLevel : String) :
    Except QRError QRVersionSpec :=
  if encodingType ≠ "binary" then
    .error (.unsupportedEncoding encodingType)
  else if !validLevel errorCorrectionLevel then
    .error (.invalidECLevel errorCorrectionLevel)
  else
    let ecLevel := toECLevel errorCorrectionLevel
    match scanFrom textLength ecLevel 1 10 with
    | some spec => .ok spec
    | none => .error (.textTooLong textLength encodingType errorCorrectionLevel)

/-! Helper lemmas shared by the claim theorems. -/

/-- The `version` field of a looked-up spec is the requested version, for
curated entries and fallback specs alike. -/
theorem getQRSpec_version (v : Nat) : (getQRSpec v).version = v := by
  rw [getQRSpec, QR_SPECIFICATIONS]
  split_ifs with h1 h2 h3 h4 h5
  · subst h1; rfl
  · subst h2; rfl
  · subst h3; rfl
  · subst h4; rfl
  · subst h5; rfl
  · rfl

/-- The `module` field of a looked-up spec follows the `calculateModules`
formula for every version ≥ 1, for curated entries and fallback specs
alike. -/
theorem getQRSpec_module (v : Nat) (hv : 1 ≤ v) :
    (getQRSpec v).module = 21 + 4 * (v - 1) := by
  rw [getQRSpec, QR_SPECIFICATIONS]
  split_ifs with h1 h2 h3 h4 h5
  · subst h1; rfl
  · subst h2; rfl
  · subst h3; rfl
  · subst h4; rfl
  · subst h5; rfl
  · rfl

/-- Arithmetic identity behind the decrement loop: removing the remainder
leaves the largest multiple of `n` below `a`. -/
theorem sub_mod_eq (a n : Nat) : a - a % n = n * (a / n) := by
  exact Nat.sub_eq_of_eq_add (Nat.div_add_mod a n).symm

/-- The decrement loop of `getBlockSize` computes `w - w % n`, i.e. the
largest value ≤ `w` divisible by `n` (reaching 0 when none is positive). -/
theorem adjustWidth_eq (n w : Nat) : adjustWidth n w = w - w % n := by
  induction w with
  | zero => simp [adjustWidth]
  | succ w ih =>
    rw [adjustWidth]
    by_cases h : (w + 1) % n = 0
    · rw [if_pos h, h, Nat.sub_zero]
    · rw [if_neg h, ih, sub_mod_eq, sub_mod_eq, Nat.succ_div,
        if_neg (fun hd => h (Nat.dvd_iff_mod_eq_zero.mp hd)), Nat.add_zero]

/-- Success characterization of the selector loop: a returned spec is the
spec of the first version in the scanned window whose capacity fits the
text. -/
theorem scanFrom_some (len : Nat) (lvl : ECLevel) :
    ∀ (fuel start : Nat) (spec : QRVersionSpec),
      scanFrom len lvl start fuel = some spec →
      ∃ v, start ≤ v ∧ v < start + fuel ∧ spec = getQRSpec v ∧ len ≤ cap v lvl ∧
        ∀ u, start ≤ u → u < v → cap u lvl < len := by
  intro fuel
  induction fuel with
  | zero => intro start spec h; exact Option.noConfusion h
  | succ fuel ih =>
    intro start spec h
    rw [scanFrom] at h
    by_cases hc : len ≤ cap start lvl
    · rw [if_pos hc] at h
      refine ⟨start, Nat.le_refl _, by omega, (Option.some.inj h).symm, hc, ?_⟩
      intro u h1 h2
      omega
    · rw [if_neg hc] at h
      obtain ⟨v, hv1, hv2, hv3, hv4, hv5⟩ := ih (start + 1) spec h
      refine ⟨v, by omega, by omega, hv3, hv4, ?_⟩
      intro u h1 h2
      by_cases hu : u = start
      · subst hu; omega
      · exact hv5 u (by omega) h2

/-- Failure characterization of the selector loop: the scan exhausts its
window exactly when no scanned version has enough capacity. -/
theorem scanFrom_none_iff (len : Nat) (lvl : ECLevel) :
    ∀ (fuel start : Nat),
      scanFrom len lvl start fuel = none ↔
        ∀ v, start ≤ v → v < start + fuel → cap v lvl < len := by
  intro fuel
  induction fuel with
  | zero =>
    intro start
    constructor
    · intro _ v h1 h2; omega
    · intro _; rfl
  | succ fuel ih =>
    intro start
    rw [scanFrom]
    by_cases hc : len ≤ cap start lvl
    · rw [if_pos hc]
      constructor
      · intro h; exact Option.noConfusion h
      · intro h; exact absurd (h start (Nat.le_refl _) (by omega)) (by omega)
    · rw [if_neg hc]
      rw [ih (start + 1)]
      constructor
      · intro h v h1 h2
        by_cases hv : v = start
        · subst hv; omega
        · exact h v (by omega) (by omega)
      · intro h v h1 h2
        exact h v (by omega) (by omega)

/-- With binary encoding and a valid level, `findBestConfig` reduces to
the outcome of the version scan. -/
theorem findBestConfig_eq_of_valid (len : Nat) (lvl : String) (hl : validLevel lvl = true) :
    findBestConfig len "binary" lvl =
      match scanFrom len (toECLevel lvl) 1 10 with
      | some spec => .ok spec
      | none => .error (.textTooLong len "binary" lvl) := by
  rw [findBestConfig, if_neg (fun hne => hne rfl), hl]
  rfl

/-- With binary encoding and an invalid level, `findBestConfig` throws the
invalid-level error. -/
theorem findBestConfig_eq_of_invalid (len : Nat) (lvl : String) (hl : validLevel lvl = false) :
    findBestConfig len "binary" lvl = .error (.invalidECLevel lvl) := by
  rw [findBestConfig, if_neg (fun hne => hne rfl), hl]
  rfl

/-- With a non-binary encoding, `findBestConfig` throws the
unsupported-encoding error before anything else. -/
theorem findBestConfig_eq_of_bad_mode (len : Nat) (mode lvl : String) (hm : mode ≠ "binary") :
    findBestConfig len mode lvl = .error (.unsupportedEncoding mode) := by
  rw [findBestConfig, if_pos hm]

/-- A successful `findBestConfig` call implies binary encoding, a valid
level, and a successful scan producing the returned spec. -/
theorem findBestConfig_ok_scan (len : Nat) (mode lvl : String) (spec : QRVersionSpec)
    (h : findBestConfig len mode lvl = .ok spec) :
    mode = "binary" ∧ validLevel lvl = true ∧
      scanFrom len (toECLevel lvl) 1 10 = some spec := by
  by_cases hm : mode = "binary"
  · subst hm
    by_cases hl : validLevel lvl
    · refine ⟨rfl, hl, ?_⟩
      rw [findBestConfig_eq_of_valid len lvl hl] at h
      cases hscan : scanFrom len (toECLevel lvl) 1 10 with
      | none => rw [hscan] at h; exact Except.noConfusion h
      | some spec2 =>
        rw [hscan] at h
        rw [Option.some.injEq]
        exact (Except.ok.inj h).symm ▸ rfl
    · rw [findBestConfig_eq_of_invalid len lvl (Bool.of_not_eq_true hl)] at h
      exact Except.noConfusion h
  · rw [findBestConfig_eq_of_bad_mode len mode lvl hm] at h
    exact Except.noConfusion h

/-! Claim theorems. -/

/-- Claim C1, counterexample: for version 3 (axis `[6, 22]`, moduleCount 29)
the placer draws exactly the coordinate `(22, 22)`, and `(6, 6)` is not
drawn — refuting the claimed surviving set `{(6, 6)}`. -/
theorem alignment_v3_claim_false :
    addAlignementPatternCoords (getQRSpec 3) = [{ x := 22, y := 22 }] ∧
    ({ x := 6, y := 6 } : Coord) ∉ addAlignementPatternCoords (getQRSpec 3) := by
  decide

/-- Claim C1, amended: for version 3 the surviving alignment coordinate set
is exactly `{(22, 22)}`; the candidates `(6, 6)`, `(6, 22)` and `(22, 6)`
are each rejected by the finder-zone exclusion filter, while `(22, 22)`
(the bottom-right corner, which has no finder pattern) is not. -/
theorem alignment_v3_drawn :
    addAlignementPatternCoords (getQRSpec 3) = [{ x := 22, y := 22 }] ∧
    isCoordinateForbiden (getQRSpec 3).module { x := 6, y := 6 } = true ∧
    isCoordinateForbiden (getQRSpec 3).module { x := 6, y := 22 } = true ∧
    isCoordinateForbiden (getQRSpec 3).module { x := 22, y := 6 } = true ∧
    isCoordinateForbiden (getQRSpec 3).module { x := 22, y := 22 } = false := by
  decide

/-- Claim C2: the block-size computation on a surface of width 3 with
module count 5 returns 0, violating the claimed contract `0 < b * n`
(the decrement loop has no positive floor). -/
theorem getBlockSize_zero_small_surface :
    getBlockSize 3 5 = 0 ∧ ¬ 0 < getBlockSize 3 5 * 5 := by
  decide

/-- Claim C3: a successful selection with binary encoding returns the spec
of the first version in 1..10 whose capacity at the requested level is
≥ the text length; in particular length 19 at level L selects version 1
(moduleCount 21), length 20 selects version 2 (moduleCount 25), and the
boundary case 19 = dataCodewords(1, L) stays on version 1. -/
theorem findBestConfig_first_fit :
    (∀ (len : Nat) (lvl : String) (spec : QRVersionSpec),
        findBestConfig len "binary" lvl = .ok spec →
        spec = getQRSpec spec.version ∧ 1 ≤ spec.version ∧ spec.version ≤ 10 ∧
        len ≤ cap spec.version (toECLevel lvl) ∧
        ∀ u, 1 ≤ u → u < spec.version → cap u (toECLevel lvl) < len) ∧
    findBestConfig 19 "binary" "L" = .ok spec1 ∧
    findBestConfig 20 "binary" "L" = .ok spec2 ∧
    spec1.version = 1 ∧ spec1.module = 21 ∧ spec2.version = 2 ∧ spec2.module = 25 ∧
    cap 1 .L = 19 := by
  refine ⟨?_, rfl, rfl, rfl, rfl, rfl, rfl, rfl⟩
  intro len lvl spec h
  obtain ⟨-, -, hscan⟩ := findBestConfig_ok_scan len "binary" lvl spec h
  obtain ⟨v, hv1, hv2, hv3, hv4, hv5⟩ := scanFrom_some len (toECLevel lvl) 10 1 spec hscan
  have e : spec.version = v := by rw [hv3, getQRSpec_version]
  rw [e]
  exact ⟨hv3, hv1, by omega, hv4, hv5⟩

/-- Claim C3, witness: the first-fit characterization instantiated at text
length 34, level L, returned spec `spec2`. -/
theorem findBestConfig_first_fit_witness :
    spec2 = getQRSpec spec2.version ∧ 1 ≤ spec2.version ∧ spec2.version ≤ 10 ∧
    34 ≤ cap spec2.version (toECLevel "L") ∧
    ∀ u, 1 ≤ u → u < spec2.version → cap u (toECLevel "L") < 34 :=
  findBestConfig_first_fit.1 34 "L" spec2 rfl

/-- Claim C4: version selection is monotonic in text length — for a ≤ b
and a fixed level string, two successful binary selections return
non-decreasing versions — and capacity at each fixed level is
non-decreasing from every scanned version to the next, including the
transition from curated entry 5 to estimated entry 6. -/
theorem selectVersion_monotone :
    (∀ (a b : Nat) (lvl : String) (specA specB : QRVersionSpec),
        a ≤ b →
        findBestConfig a "binary" lvl = .ok specA →
        findBestConfig b "binary" lvl = .ok specB →
        specA.version ≤ specB.version) ∧
    (∀ (lvl : ECLevel) (v : Nat), 1 ≤ v → v < 10 → cap v lvl ≤ cap (v + 1) lvl) := by
  constructor
  · intro a b lvl specA specB hab ha hb
    obtain ⟨-, -, hsa⟩ := findBestConfig_ok_scan a "binary" lvl specA ha
    obtain ⟨-, -, hsb⟩ := findBestConfig_ok_scan b "binary" lvl specB hb
    obtain ⟨va, hva1, hva2, hva3, hva4, hva5⟩ := scanFrom_some a (toECLevel lvl) 10 1 specA hsa
    obtain ⟨vb, hvb1, hvb2, hvb3, hvb4, hvb5⟩ := scanFrom_some b (toECLevel lvl) 10 1 specB hsb
    have ea : specA.version = va := by rw [hva3, getQRSpec_version]
    have eb : specB.version = vb := by rw [hvb3, getQRSpec_version]
    rw [ea, eb]
    by_contra hlt
    have hcontra := hva5 vb hvb1 (by omega)
    omega
  · intro lvl v h1 h2
    interval_cases v <;> cases lvl <;> decide

/-- Claim C4, witness: lengths 19 ≤ 20 at level L select versions 1 ≤ 2,
and capacity does not drop from version 5 to version 6 at level L. -/
theorem selectVersion_monotone_witness :
    spec1.version ≤ spec2.version ∧ cap 5 .L ≤ cap 6 .L :=
  ⟨selectVersion_monotone.1 19 20 "L" spec1 spec2 (by decide) rfl rfl,
   selectVersion_monotone.2 .L 5 (by decide) (by decide)⟩

/-- Claim C5, counterexample: version 41 is outside every supported range,
yet the lookup does not fail — it returns a full estimated spec (version
field 41, module 181). -/
theorem getQRSpec_41_returns_spec :
    QR_SPECIFICATIONS 41 = none ∧ (getQRSpec 41).version = 41 ∧ (getQRSpec 41).module = 181 := by
  decide

/-- Claim C5, amended: the lookup never fails with UnsupportedVersion —
for every version outside the curated table range 1..5 it returns the
estimated fallback spec. -/
theorem getQRSpec_total_outside_table (v : Nat) (hv : v < 1 ∨ 5 < v) :
    QR_SPECIFICATIONS v = none ∧ getQRSpec v = fallbackSpec v := by
  have h : QR_SPECIFICATIONS v = none := by
    rw [QR_SPECIFICATIONS]
    split_ifs with h1 h2 h3 h4 h5
    · exact absurd h1 (by omega)
    · exact absurd h2 (by omega)
    · exact absurd h3 (by omega)
    · exact absurd h4 (by omega)
    · exact absurd h5 (by omega)
    · rfl
  exact ⟨h, by rw [getQRSpec, h]⟩

/-- Claim C5, witness: the amended lookup totality applied at version 41. -/
theorem getQRSpec_total_outside_table_witness :
    QR_SPECIFICATIONS 41 = none ∧ getQRSpec 41 = fallbackSpec 41 :=
  getQRSpec_total_outside_table 41 (Or.inr (by decide))

/-- Claim C6: selection fails with the unsupported-encoding error exactly
when the mode is not binary; given binary mode it fails with the
invalid-level error exactly when the level is not one of L, M, Q, H; and
any selected version implies both validations passed (the checks precede
selection). -/
theorem findBestConfig_validation :
    ∀ (len : Nat) (mode lvl : String),
      (findBestConfig len mode lvl = .error (.unsupportedEncoding mode) ↔ mode ≠ "binary") ∧
      (mode = "binary" →
        (findBestConfig len mode lvl = .error (.invalidECLevel lvl) ↔ validLevel lvl = false)) ∧
      (∀ spec, findBestConfig len mode lvl = .ok spec →
        mode = "binary" ∧ validLevel lvl = true) := by
  intro len mode lvl
  refine ⟨?_, ?_, fun spec h => ⟨(findBestConfig_ok_scan len mode lvl spec h).1,
    (findBestConfig_ok_scan len mode lvl spec h).2.1⟩⟩
  all_goals by_cases hm : mode = "binary"
  · subst hm
    by_cases hl : validLevel lvl
    · cases hscan : scanFrom len (toECLevel lvl) 1 10 with
      | some s =>
        have hr : findBestConfig len "binary" lvl = .ok s := by
          rw [findBestConfig_eq_of_valid len lvl hl, hscan]
        rw [hr]
        exact iff_of_false (fun h => Except.noConfusion h) (fun h => h rfl)
      | none =>
        have hr : findBestConfig len "binary" lvl = .error (.textTooLong len "binary" lvl) := by
          rw [findBestConfig_eq_of_valid len lvl hl, hscan]
        rw [hr]
        exact iff_of_false (fun h => QRError.noConfusion (Except.error.inj h)) (fun h => h rfl)
    · rw [findBestConfig_eq_of_invalid len lvl (Bool.of_not_eq_true hl)]
      exact iff_of_false (fun h => QRError.noConfusion (Except.error.inj h)) (fun h => h rfl)
  · rw [findBestConfig_eq_of_bad_mode len mode lvl hm]
    exact iff_of_true rfl hm
  · subst hm
    intro _
    by_cases hl : validLevel lvl
    · cases hscan : scanFrom len (toECLevel lvl) 1 10 with
      | some s =>
        have hr : findBestConfig len "binary" lvl = .ok s := by
          rw [findBestConfig_eq_of_valid len lvl hl, hscan]
        rw [hr]
        exact iff_of_false (fun h => Except.noConfusion h)
          (fun h => by rw [h] at hl; exact Bool.noConfusion hl)
      | none =>
        have hr : findBestConfig len "binary" lvl = .error (.textTooLong len "binary" lvl) := by
          rw [findBestConfig_eq_of_valid len lvl hl, hscan]
        rw [hr]
        exact iff_of_false (fun h => QRError.noConfusion (Except.error.inj h))
          (fun h => by rw [h] at hl; exact Bool.noConfusion hl)
    · have hl2 : validLevel lvl = false := Bool.of_not_eq_true hl
      rw [findBestConfig_eq_of_invalid len lvl hl2]
      exact iff_of_true rfl hl2
  · intro h
    exact absurd h hm

/-- Claim C6, witness: level Z with binary mode yields the invalid-level
error, and the successful selection at length 19 level L implies both
validations passed. -/
theorem findBestConfig_validation_witness :
    findBestConfig 7 "binary" "Z" = .error (.invalidECLevel "Z") ∧
    ("binary" = "binary" ∧ validLevel "L" = true) :=
  ⟨((findBestConfig_validation 7 "binary" "Z").2.1 rfl).mpr rfl,
   (findBestConfig_validation 19 "binary" "L").2.2 spec1 rfl⟩

/-- Claim C7: with binary mode and a valid level, a text length exceeding
the capacity of every scanned version 1..10 makes selection fail with the
text-too-long error carrying the requested length, the encoding mode and
the level. -/
theorem findBestConfig_text_too_long (len : Nat) (lvl : String)
    (hl : validLevel lvl = true)
    (hcap : ∀ v, 1 ≤ v → v ≤ 10 → cap v (toECLevel lvl) < len) :
    findBestConfig len "binary" lvl = .error (.textTooLong len "binary" lvl) := by
  rw [findBestConfig_eq_of_valid len lvl hl,
    (scanFrom_none_iff len (toECLevel lvl) 10 1).mpr (fun v h1 h2 => hcap v h1 (by omega))]

/-- Claim C7, witness: length 10000 at level H fails with the
text-too-long error carrying (10000, binary, H). -/
theorem findBestConfig_text_too_long_witness :
    findBestConfig 10000 "binary" "H" = .error (.textTooLong 10000 "binary" "H") :=
  findBestConfig_text_too_long 10000 "H" rfl
    (by intro v h1 h2; interval_cases v <;> decide)

/-- Claim C8: for every version 1..10 the selector can return (curated
entries 1..5 and estimated fallback entries 6..10), dataCodewords strictly
decreases across the levels in the order L, M, Q, H. -/
theorem dataCodewords_strict_decrease (v : Nat) (h1 : 1 ≤ v) (h2 : v ≤ 10) :
    cap v .M < cap v .L ∧ cap v .Q < cap v .M ∧ cap v .H < cap v .Q := by
  interval_cases v <;> decide

/-- Claim C8, witness: the strict capacity chain at version 4. -/
theorem dataCodewords_strict_decrease_witness :
    cap 4 .M < cap 4 .L ∧ cap 4 .Q < cap 4 .M ∧ cap 4 .H < cap 4 .Q :=
  dataCodewords_strict_decrease 4 (by decide) (by decide)

/-- Claim C9: for every version ≥ 1 (curated or fallback) the module count
equals `21 + 4 * (v - 1)`, is odd, and is strictly increasing in the
version. -/
theorem moduleCount_formula :
    (∀ v, 1 ≤ v → (getQRSpec v).module = 21 + 4 * (v - 1)) ∧
    (∀ v, 1 ≤ v → (getQRSpec v).module % 2 = 1) ∧
    (∀ v w, 1 ≤ v → v < w → (getQRSpec v).module < (getQRSpec w).module) := by
  refine ⟨getQRSpec_module, ?_, ?_⟩
  · intro v hv
    rw [getQRSpec_module v hv]
    omega
  · intro v w hv hw
    rw [getQRSpec_module v hv, getQRSpec_module w (by omega)]
    omega

/-- Claim C9, witness: the formula, oddness, and growth evaluated at
versions 3 and 7. -/
theorem moduleCount_formula_witness :
    (getQRSpec 3).module = 21 + 4 * (3 - 1) ∧ (getQRSpec 3).module % 2 = 1 ∧
    (getQRSpec 3).module < (getQRSpec 7).module :=
  ⟨moduleCount_formula.1 3 (by decide), moduleCount_formula.2.1 3 (by decide),
   moduleCount_formula.2.2 3 7 (by decide) (by decide)⟩

/-- Claim C10: for every surface width and positive module count the
decrement loop terminates and `getBlockSize` computes the floor division
of the width by the module count; in particular it returns 0 (and no
error) whenever the width is below the module count. -/
theorem getBlockSize_floor_div (width n : Nat) (hn : 0 < n) :
    getBlockSize width n = width / n ∧ (width < n → getBlockSize width n = 0) := by
  have h1 : getBlockSize width n = width / n := by
    rw [getBlockSize, adjustWidth_eq, sub_mod_eq, Nat.mul_div_cancel_left _ hn]
  exact ⟨h1, fun hlt => by rw [h1, Nat.div_eq_of_lt hlt]⟩

/-- Claim C10, witness: the floor-division characterization at the sample
surface width 300 with module count 29. -/
theorem getBlockSize_floor_div_witness :
    getBlockSize 300 29 = 300 / 29 ∧ (300 < 29 → getBlockSize 300 29 = 0) :=
  getBlockSize_floor_div 300 29 (by decide)

end QRGen
